import Mathlib

/-!
Shallow embedding of the calendar-hub confirmation-token protocol and
submission state machine, translated from the repository source
(`utils/csrf.py`, `services/kms.py`, `services/dynamodb.py`,
`blueprints/events/routes.py`, `blueprints/newsletters/routes.py`).

Python strings are modelled as `List Char`; the DynamoDB table as an
association function from keys to optional items; external collaborators
(HMAC-SHA256 digests, the delegated KMS MAC service, the stdlib urlsafe
base64 codec, WTForms validation, uuid generation, the GitHub publisher)
are abstract parameters, exactly the boundary the code draws around them.
-/

namespace CalendarHub

/-- The ten ASCII digit characters, as produced by Python `str` on a digit. -/
def digitChar : Nat → Char
  | 0 => '0'
  | 1 => '1'
  | 2 => '2'
  | 3 => '3'
  | 4 => '4'
  | 5 => '5'
  | 6 => '6'
  | 7 => '7'
  | 8 => '8'
  | 9 => '9'
  | _ => '?'

/-- Numeric value of an ASCII digit character; `none` on any non-digit.
Models the per-character step of Python `int` on a canonical decimal
numeral (the only numerals the embedded code ever produces or parses). -/
def digitVal (c : Char) : Option Nat :=
  if c = '0' then some 0
  else if c = '1' then some 1
  else if c = '2' then some 2
  else if c = '3' then some 3
  else if c = '4' then some 4
  else if c = '5' then some 5
  else if c = '6' then some 6
  else if c = '7' then some 7
  else if c = '8' then some 8
  else if c = '9' then some 9
  else none

/-- Worker for decimal rendering: structural recursion on `fuel`, which
bounds the number of divisions by 10 (any `fuel ≥ n` is enough; the
`fuel = 0` fallback is reached only when `n` is a single digit). -/
def natToCharsAux (fuel : Nat) (n : Nat) : List Char :=
  match fuel with
  | 0 => [digitChar n]
  | fuel + 1 =>
    if n < 10 then [digitChar n]
    else natToCharsAux fuel (n / 10) ++ [digitChar (n % 10)]

/-- Decimal rendering of a natural number: Python `str` of a nonnegative int,
also Python f-string interpolation of such an int. -/
def natToChars (n : Nat) : List Char := natToCharsAux n n

/-- Accumulating decimal parser over a character list. -/
def parseNatAux (acc : Nat) : List Char → Option Nat
  | [] => some acc
  | c :: cs =>
    match digitVal c with
    | none => none
    | some d => parseNatAux (acc * 10 + d) cs

/-- Python `int(s)` on a string of ASCII digits: `none` (a raised
`ValueError`) on the empty string or any non-digit character. -/
def parseNat (cs : List Char) : Option Nat :=
  if cs = [] then none else parseNatAux 0 cs

/-- Python `str.split(":")` on a character list. -/
def splitOnColon : List Char → List (List Char)
  | [] => [[]]
  | c :: cs =>
    if c = ':' then [] :: splitOnColon cs
    else
      match splitOnColon cs with
      | [] => [[c]]
      | s :: ss => (c :: s) :: ss

/-- Python `s.rstrip('=')`. -/
def rstripEq (s : List Char) : List Char :=
  (s.reverse.dropWhile (fun c => c = '=')).reverse

/-- Python `s + '=' * (-len(s) % 4)`: restore urlsafe-base64 padding. -/
def padB64 (s : List Char) : List Char :=
  s ++ List.replicate ((4 - s.length % 4) % 4) '='

/-! ## CSRF token manager (`utils/csrf.py`)

`hmacHex` models `hmac.new(key, msg, hashlib.sha256).hexdigest()`
(an external primitive: a function of the key and message whose output is
a 64-character lowercase-hex string, in particular colon-free — stated as
a hypothesis where a theorem needs it).  `random_token` models
`secrets.token_hex(16)` (external randomness, likewise colon-free hex). -/

/-- `generate_csrf_token(secret_key, expiry=3600)`: returns the token
`f"{random_token}:{expiry_timestamp}:{signature}"` and the expiry epoch
`now + expiry`. -/
def generate_csrf_token (hmacHex : List Char → List Char → List Char)
    (secret_key random_token : List Char) (now expiry : Nat) :
    List Char × Nat :=
  let expiry_timestamp := now + expiry
  let message := random_token ++ ':' :: natToChars expiry_timestamp
  let signature := hmacHex secret_key message
  (message ++ ':' :: signature, expiry_timestamp)

/-- `validate_csrf_token(token, secret_key)`: split on `:` into exactly three
fields (else the unpack raises `ValueError`, caught as `False`), fail if the
clock is past the parsed expiry, then recompute the signature over
`f"{random_token}:{expiry_timestamp}"` and compare. -/
def validate_csrf_token (hmacHex : List Char → List Char → List Char)
    (token secret_key : List Char) (now : Nat) : Bool :=
  match splitOnColon token with
  | [random_token, expiryChars, signature] =>
    match parseNat expiryChars with
    | none => false
    | some expiry_timestamp =>
      if now > expiry_timestamp then false
      else
        let message := random_token ++ ':' :: expiryChars
        decide (hmacHex secret_key message = signature)
  | _ => false

/-- The route-level CSRF guard `if not csrf_token or not
validate_csrf_token(csrf_token, secret)`: `data.get('csrf_token')` may be
absent (`none`) or empty (falsy), both rejected before validation. -/
def csrf_token_passes (hmacHex : List Char → List Char → List Char)
    (secret_key : List Char) (now : Nat) : Option (List Char) → Bool
  | none => false
  | some t => decide (t ≠ []) && validate_csrf_token hmacHex t secret_key now

/-! ## Delegated confirmation signatures (`services/kms.py`)

`verifyMac` models the external KMS call `kms.verify_mac(Message, KeyId,
'HMAC_SHA_512', Mac)` together with the base64 handling of the signature
argument and the catch-all `return False` on any exception: a boolean
function of the canonical message and the signature path segment.
`signMac` likewise models `kms.generate_mac` followed by the urlsafe-base64
encoding of the MAC bytes. -/

/-- The canonical message
`f"{email}:{contact_list_name}:{topic_name}:{timestamp}".encode()` built by
both `generate_confirmation_signature` and `verify_confirmation_signature`. -/
def confirmation_message (email contact_list_name topic_name : List Char)
    (timestamp : Nat) : List Char :=
  email ++ ':' :: contact_list_name ++ ':' :: topic_name ++ ':' ::
    natToChars timestamp

/-- `KMSService.verify_confirmation_signature`: rebuild the canonical message
and delegate MAC verification. -/
def verify_confirmation_signature (verifyMac : List Char → List Char → Bool)
    (email contact_list_name topic_name : List Char) (timestamp : Nat)
    (signature : List Char) : Bool :=
  verifyMac (confirmation_message email contact_list_name topic_name timestamp)
    signature

/-! ## Newsletter routes (`blueprints/newsletters/routes.py`) -/

/-- The site configuration fields the newsletter routes read, as resolved by
`get_site_by_slug`. -/
structure NSite where
  contact_list_name : List Char
  topic_name : List Char
deriving DecidableEq

/-- `generate_confirmation_url` (minus the constant path text): sign the
canonical message with the delegated signer, then return the three path
segments — `urlsafe_b64encode(..).rstrip('=')` of the email and of
`str(timestamp)`, and the signature.  `b64encode` models the stdlib
`urlsafe_b64encode` of a UTF-8 encoded string. -/
def generate_confirmation_segments (b64encode : List Char → List Char)
    (signMac : List Char → List Char) (site : NSite)
    (email : List Char) (timestamp : Nat) :
    List Char × List Char × List Char :=
  (rstripEq (b64encode email),
   rstripEq (b64encode (natToChars timestamp)),
   signMac (confirmation_message email site.contact_list_name site.topic_name
     timestamp))

/-- Body of a newsletter GET-preview response: either a rendered
`error.html` with a message, a JSON error, or the rendered action page
carrying the link data forward into the POST form. -/
inductive PreviewBody where
  | jsonError (msg : List Char)
  | errorPage (msg : List Char)
  | actionPage (email : List Char) (timestamp : Nat) (signature : List Char)
deriving DecidableEq

/-- An HTTP response: status code and body. -/
structure Resp where
  status : Nat
  body : PreviewBody
deriving DecidableEq

def siteNotFoundMsg : List Char := "Site not found".data
def invalidConfirmMsg : List Char := "Invalid confirmation link".data
def expiredConfirmMsg : List Char := "Confirmation link has expired".data
def invalidUnsubMsg : List Char := "Invalid unsubscribe link".data

/-- `confirm_preview` (GET confirm path): restore base64 padding, decode the
email and timestamp segments (`b64decode` models `urlsafe_b64decode` composed
with `.decode('utf-8')`; `none` is a raised exception, caught by the handler's
`except` as the invalid-link page), parse the timestamp (a raised `ValueError`
is likewise caught), reject links older than 6 hours, then verify the
delegated signature.  `datetime.utcnow().timestamp()` is `now`. -/
def confirm_preview (sites : List Char → Option NSite)
    (b64decode : List Char → Option (List Char))
    (verifyMac : List Char → List Char → Bool) (now : Nat)
    (site_slug encoded_email encoded_timestamp signature : List Char) : Resp :=
  match sites site_slug with
  | none => ⟨404, .jsonError siteNotFoundMsg⟩
  | some site =>
    match b64decode (padB64 encoded_email) with
    | none => ⟨400, .errorPage invalidConfirmMsg⟩
    | some email =>
      match b64decode (padB64 encoded_timestamp) with
      | none => ⟨400, .errorPage invalidConfirmMsg⟩
      | some tsChars =>
        match parseNat tsChars with
        | none => ⟨400, .errorPage invalidConfirmMsg⟩
        | some timestamp =>
          if (now : Int) - (timestamp : Int) > 21600 then
            ⟨400, .errorPage expiredConfirmMsg⟩
          else if verify_confirmation_signature verifyMac email
              site.contact_list_name site.topic_name timestamp signature then
            ⟨200, .actionPage email timestamp signature⟩
          else ⟨400, .errorPage invalidConfirmMsg⟩

/-- Outcome of the POST `confirm_subscription` handler.  `subscribed e` marks
the `create_or_update_contact(list, e, topic)` call followed by the redirect
to the success page; every other constructor is an error response with no
contact-list mutation. -/
inductive ConfirmPostResult where
  | siteNotFound
  | invalidData
  | expired
  | serverError
  | subscribed (email : List Char)
deriving DecidableEq

/-- `confirm_subscription` (POST confirm path): read the form fields
(`request.form.get`, `none` when absent), reject if any is missing or empty
(`not all([...])`), parse the timestamp (a raised `ValueError` falls to the
outer `except`, a 500), re-check the 6-hour window, re-verify the signature,
then upsert the contact. -/
def confirm_subscription (sites : List Char → Option NSite)
    (verifyMac : List Char → List Char → Bool) (now : Nat)
    (site_slug : List Char)
    (email timestamp signature : Option (List Char)) : ConfirmPostResult :=
  match sites site_slug with
  | none => .siteNotFound
  | some site =>
    match email, timestamp, signature with
    | some e, some ts, some sg =>
      if e = [] ∨ ts = [] ∨ sg = [] then .invalidData
      else
        match parseNat ts with
        | none => .serverError
        | some t =>
          if (now : Int) - (t : Int) > 21600 then .expired
          else if verify_confirmation_signature verifyMac e
              site.contact_list_name site.topic_name t sg then .subscribed e
          else .invalidData
    | _, _, _ => .invalidData

/-- `unsubscribe_preview` (GET unsubscribe path): identical to
`confirm_preview` except that it performs **no expiry check** ("no time limit
for unsubscribe") and consults no clock at all. -/
def unsubscribe_preview (sites : List Char → Option NSite)
    (b64decode : List Char → Option (List Char))
    (verifyMac : List Char → List Char → Bool)
    (site_slug encoded_email encoded_timestamp signature : List Char) : Resp :=
  match sites site_slug with
  | none => ⟨404, .jsonError siteNotFoundMsg⟩
  | some site =>
    match b64decode (padB64 encoded_email) with
    | none => ⟨400, .errorPage invalidUnsubMsg⟩
    | some email =>
      match b64decode (padB64 encoded_timestamp) with
      | none => ⟨400, .errorPage invalidUnsubMsg⟩
      | some tsChars =>
        match parseNat tsChars with
        | none => ⟨400, .errorPage invalidUnsubMsg⟩
        | some timestamp =>
          if verify_confirmation_signature verifyMac email
              site.contact_list_name site.topic_name timestamp signature then
            ⟨200, .actionPage email timestamp signature⟩
          else ⟨400, .errorPage invalidUnsubMsg⟩

/-- Outcome of the POST `unsubscribe` handler.  `unsubscribed e` marks the
`unsubscribe_contact(list, e, topic)` call followed by the unsubscribed page. -/
inductive UnsubPostResult where
  | siteNotFound
  | invalidData
  | serverError
  | unsubscribed (email : List Char)
deriving DecidableEq

/-- `unsubscribe` (POST unsubscribe path): like `confirm_subscription` but
with **no expiry check** and no clock input. -/
def unsubscribe (sites : List Char → Option NSite)
    (verifyMac : List Char → List Char → Bool) (site_slug : List Char)
    (email timestamp signature : Option (List Char)) : UnsubPostResult :=
  match sites site_slug with
  | none => .siteNotFound
  | some site =>
    match email, timestamp, signature with
    | some e, some ts, some sg =>
      if e = [] ∨ ts = [] ∨ sg = [] then .invalidData
      else
        match parseNat ts with
        | none => .serverError
        | some t =>
          if verify_confirmation_signature verifyMac e
              site.contact_list_name site.topic_name t sg then .unsubscribed e
          else .invalidData
    | _, _, _ => .invalidData

/-! ## Submissions store (`services/dynamodb.py`) and events routes
(`blueprints/events/routes.py`) -/

/-- One event item of a submission's payload, the fields of `EventForm`.
Whether WTForms accepts an item is external validator logic, modelled by an
abstract predicate where the routes call `event_form.validate()`. -/
structure EventItem where
  title : List Char
  date : List Char
  time : List Char
  url : List Char
  location : List Char
  cost : List Char
deriving DecidableEq

/-- The `data` map stored with an event submission. -/
structure EventsData where
  submitted_by : List Char
  submitter_link : Option (List Char)
  events : List EventItem
deriving DecidableEq

/-- A DynamoDB submission item as written by `create_submission`. -/
structure Submission where
  submission_id : List Char
  status : List Char
  type : List Char
  site_slug : List Char
  email : List Char
  data : EventsData
  created_at : List Char
  confirmation_sent : Bool
  pr_url : Option (List Char)
deriving DecidableEq

/-- The DynamoDB table keyed by `submission_id`. -/
abbrev Store := List Char → Option Submission

/-- `SubmissionsService.create_submission`: `put_item` of a fresh item with
`status='pending'` and `confirmation_sent=False` (`created_at` is the
external clock's ISO string). -/
def create_submission (store : Store)
    (submission_id submission_type site_slug email : List Char)
    (data : EventsData) (created_at : List Char) : Store :=
  fun k =>
    if k = submission_id then
      some { submission_id := submission_id, status := "pending".data,
             type := submission_type, site_slug := site_slug, email := email,
             data := data, created_at := created_at,
             confirmation_sent := false, pr_url := none }
    else store k

/-- `SubmissionsService.get_submission`: `get_item` by key. -/
def get_submission (store : Store) (submission_id : List Char) :
    Option Submission :=
  store submission_id

/-- `SubmissionsService.update_submission_status`: `update_item` with
`SET #status = :status` (plus `pr_url` when one is given, Python truthiness
on the optional argument) and **no ConditionExpression** — an unconditional
write of the status attribute, whatever the item's current status is.
(`update_item` on an absent key would upsert a partial item; no embedded
code path reaches that case, since the system never deletes items, so the
model leaves an absent key unchanged.) -/
def update_submission_status (store : Store)
    (submission_id status : List Char) (pr_url : Option (List Char)) : Store :=
  fun k =>
    if k = submission_id then
      match store k with
      | none => none
      | some s =>
        let new_pr : Option (List Char) :=
          match pr_url with
          | some u => if u = [] then s.pr_url else some u
          | none => s.pr_url
        some { s with status := status, pr_url := new_pr }
    else store k

/-- The externally visible side effects of an events-route request, in
program order: store reads/writes, the GitHub publisher call, the
confirmation email. -/
inductive Eff where
  | getSub (submission_id : List Char)
  | publish (submission_id : List Char)
  | setStatus (submission_id status : List Char) (pr_url : Option (List Char))
  | putSub (submission_id : List Char)
  | sendEmail (dest : List Char)
deriving DecidableEq

/-- Body of a confirm response: a JSON error message or the rendered
`success.html` carrying the pull-request URL. -/
inductive CBody where
  | jsonError (msg : List Char)
  | successPage (pr_url : List Char)
deriving DecidableEq

/-- Result of `confirm_submission`: HTTP status, body, the table after the
request, and the effect trace. -/
structure ConfirmOutcome where
  status : Nat
  body : CBody
  store : Store
  effs : List Eff

/-- The site configuration fields the events routes read. -/
structure ESite where
  github_repo : List Char
deriving DecidableEq

def invalidCsrfMsg : List Char := "Invalid or missing CSRF token".data
def subNotFoundMsg : List Char := "Submission not found".data
def alreadyProcessedMsg : List Char := "Submission already processed".data
def invalidSiteMsg : List Char := "Invalid site for this submission".data
def unknownTypeMsg : List Char := "Unknown submission type".data
def prFailMsgHead : List Char := "Failed to create pull request: ".data

/-- `confirm_submission` (POST `/<site_slug>/confirm/<submission_id>/submit`):
resolve the site, check the CSRF token, read the submission, reject when
absent / not pending / from another site, then call the GitHub publisher
(`create_pr_for_events`, external: `publisher` is `.ok pr_url` or
`.error e` for a raised exception whose text is `e`), and on success write
status `confirmed` with the PR URL.  On a publisher exception the handler
returns a 500 whose JSON error is
`f'Failed to create pull request: {str(e)}'` and performs no store write. -/
def confirm_submission (sites : List Char → Option ESite)
    (hmacHex : List Char → List Char → List Char) (csrf_secret : List Char)
    (now : Nat) (publisher : Except (List Char) (List Char)) (store : Store)
    (site_slug submission_id : List Char)
    (csrf_token : Option (List Char)) : ConfirmOutcome :=
  match sites site_slug with
  | none => ⟨404, .jsonError siteNotFoundMsg, store, []⟩
  | some _site =>
    if csrf_token_passes hmacHex csrf_secret now csrf_token then
      match get_submission store submission_id with
      | none =>
        ⟨404, .jsonError subNotFoundMsg, store, [.getSub submission_id]⟩
      | some submission =>
        if submission.status ≠ "pending".data then
          ⟨400, .jsonError alreadyProcessedMsg, store, [.getSub submission_id]⟩
        else if submission.site_slug ≠ site_slug then
          ⟨400, .jsonError invalidSiteMsg, store, [.getSub submission_id]⟩
        else if submission.type = "event".data then
          match publisher with
          | .error e =>
            ⟨500, .jsonError (prFailMsgHead ++ e), store,
             [.getSub submission_id, .publish submission_id]⟩
          | .ok pr_url =>
            ⟨200, .successPage pr_url,
             update_submission_status store submission_id "confirmed".data
               (some pr_url),
             [.getSub submission_id, .publish submission_id,
              .setStatus submission_id "confirmed".data (some pr_url)]⟩
        else
          ⟨400, .jsonError unknownTypeMsg, store, [.getSub submission_id]⟩
    else ⟨403, .jsonError invalidCsrfMsg, store, []⟩

def contentTypeMsg : List Char := "Content-Type must be application/json".data
def validationFailedMsg : List Char := "Validation failed".data
def atLeastOneMsg : List Char := "At least one event is required".data
def maxFiveMsg : List Char := "Maximum of 5 events allowed per submission".data
def eventInvalidMsg : List Char := "Event validation failed".data
def pendingNoticeMsg : List Char :=
  "Submission received. Please check your email (and maybe your spam folder) for an email with a confirmation link.".data

/-- Result of `submit_event`: HTTP status, the JSON message, the table after
the request, and the effect trace. -/
structure SubmitOutcome where
  status : Nat
  msg : List Char
  store : Store
  effs : List Eff

/-- `submit_event` (POST `/<site_slug>/submit`): resolve the site, require a
JSON body, check the CSRF token, validate the submitter form
(`EventSubmissionForm.validate()`, external WTForms logic: `userFormValid`),
require 1–5 events, validate every event (`EventForm.validate()`:
`eventFormValid`; the loop returns on the first invalid item), and only then
`put_item` the pending record (`fresh_id` models `uuid.uuid4()`) and send
the confirmation email. -/
def submit_event (sites : List Char → Option ESite)
    (hmacHex : List Char → List Char → List Char) (csrf_secret : List Char)
    (now : Nat) (userFormValid : Bool) (eventFormValid : EventItem → Bool)
    (fresh_id created_at : List Char) (store : Store)
    (site_slug : List Char) (is_json : Bool)
    (csrf_token : Option (List Char)) (email submitted_by : List Char)
    (submitter_link : Option (List Char)) (events : List EventItem) :
    SubmitOutcome :=
  match sites site_slug with
  | none => ⟨404, siteNotFoundMsg, store, []⟩
  | some _site =>
    if ¬ is_json then ⟨415, contentTypeMsg, store, []⟩
    else if ¬ csrf_token_passes hmacHex csrf_secret now csrf_token then
      ⟨403, invalidCsrfMsg, store, []⟩
    else if ¬ userFormValid then ⟨400, validationFailedMsg, store, []⟩
    else if events = [] then ⟨400, atLeastOneMsg, store, []⟩
    else if events.length > 5 then ⟨400, maxFiveMsg, store, []⟩
    else if events.any (fun e => ! eventFormValid e) then
      ⟨400, eventInvalidMsg, store, []⟩
    else
      ⟨200, pendingNoticeMsg,
       create_submission store fresh_id "event".data site_slug email
         ⟨submitted_by, submitter_link, events⟩ created_at,
       [.putSub fresh_id, .sendEmail email]⟩

/-! ## Interleaving model for concurrent confirms

`confirm_submission` interacts with the shared table in two separate atomic
DynamoDB operations: the `get_item` read (line 162) and — after the local
checks and the publisher call — the unconditional `update_item` write
(line 191 via `update_submission_status`).  To examine two concurrent
confirm requests for the same id, each request is split at that boundary
and a schedule interleaves the atomic steps. -/

/-- Progress of one in-flight confirm request. -/
inductive ReqPhase where
  | notStarted
  | readDone (r : Option Submission)
  | finished

/-- The post-read remainder of `confirm_submission` applied to the value the
request read earlier: the status / site checks, the publisher call, and the
unconditional status write — exactly the branch structure of lines 164–191.
Returns the table after the step and whether the publisher was invoked. -/
def confirmFinish (store : Store) (site_slug submission_id pr : List Char)
    (r : Option Submission) : Store × Bool :=
  match r with
  | none => (store, false)
  | some submission =>
    if submission.status ≠ "pending".data then (store, false)
    else if submission.site_slug ≠ site_slug then (store, false)
    else if submission.type = "event".data then
      (update_submission_status store submission_id "confirmed".data (some pr),
       true)
    else (store, false)

/-- One atomic step of a confirm request: the read, then the finish. -/
def stepConfirm (site_slug submission_id pr : List Char) (store : Store) :
    ReqPhase → Store × ReqPhase × Nat
  | .notStarted =>
    (store, .readDone (get_submission store submission_id), 0)
  | .readDone r =>
    let sp := confirmFinish store site_slug submission_id pr r
    (sp.1, .finished, if sp.2 then 1 else 0)
  | .finished => (store, .finished, 0)

/-- Shared table plus the two requests' phases and the running count of
publisher invocations. -/
structure TwoConfirmState where
  store : Store
  procA : ReqPhase
  procB : ReqPhase
  pubs : Nat

/-- Run two confirm requests for the same submission id under a schedule:
`true` lets request A take its next atomic step, `false` request B. -/
def runTwoConfirms (site_slug submission_id prA prB : List Char) :
    TwoConfirmState → List Bool → TwoConfirmState
  | st, [] => st
  | st, isA :: rest =>
    let st' :=
      if isA then
        let r := stepConfirm site_slug submission_id prA st.store st.procA
        { st with store := r.1, procA := r.2.1, pubs := st.pubs + r.2.2 }
      else
        let r := stepConfirm site_slug submission_id prB st.store st.procB
        { st with store := r.1, procB := r.2.1, pubs := st.pubs + r.2.2 }
    runTwoConfirms site_slug submission_id prA prB st' rest

/-! ## Concrete fixtures

Closed instances of the abstract collaborators, used to evaluate the
development on concrete inputs. -/

/-- A concrete stand-in for the HMAC-SHA256 hex digest: constant colon-free
output. -/
def hmacFix : List Char → List Char → List Char := fun _ _ => "ABCD".data

/-- A concrete stand-in codec for `urlsafe_b64decode ∘ pad`: strips the
padding back off (sufficient for inputs that are their own encoding). -/
def decodeFix : List Char → Option (List Char) := fun s => some (rstripEq s)

/-- A concrete stand-in for `urlsafe_b64encode` matched with `decodeFix`. -/
def encodeFix : List Char → List Char := fun s => s

/-- A delegated verifier accepting everything. -/
def verifyYes : List Char → List Char → Bool := fun _ _ => true

/-- A delegated verifier rejecting everything. -/
def verifyNo : List Char → List Char → Bool := fun _ _ => false

/-- A delegated signer with constant output. -/
def signFix : List Char → List Char := fun _ => "MAC0".data

def nsiteFix : NSite := ⟨"list1".data, "topicA".data⟩

def nsitesFix : List Char → Option NSite :=
  fun slug => if slug = "alpha".data then some nsiteFix else none

def esiteFix : ESite := ⟨"https://github.com/org/repo".data⟩

def esitesFix : List Char → Option ESite :=
  fun slug => if slug = "alpha".data then some esiteFix else none

def itemFix : EventItem :=
  ⟨"Launch Party".data, "2024-06-01".data, "18:00".data,
   "https://example.org/e".data, "DC".data, "free".data⟩

def subFix : Submission :=
  { submission_id := "id0".data, status := "pending".data,
    type := "event".data, site_slug := "alpha".data,
    email := "a@b.example".data,
    data := ⟨"ross".data, none, [itemFix]⟩,
    created_at := "2024-06-01T00:00:00".data,
    confirmation_sent := false, pr_url := none }

def storeFix : Store := fun k => if k = "id0".data then some subFix else none

/-- A CSRF token issued by the embedded `generate_csrf_token` under
`hmacFix` at time 100 with the default 3600-second expiry. -/
def tokFix : List Char :=
  (generate_csrf_token hmacFix "sec".data "nonce1".data 100 3600).1

/-! ## Helper lemmas: decimal round-trip and colon splitting -/

theorem digitChar_ne_colon (d : Nat) : digitChar d ≠ ':' := by
  unfold digitChar
  split <;> decide

theorem digitVal_digitChar (d : Nat) (h : d < 10) :
    digitVal (digitChar d) = some d := by
  interval_cases d <;> decide

theorem natToCharsAux_fuel (n : Nat) :
    ∀ fuel, n ≤ fuel → natToCharsAux fuel n = natToCharsAux n n := by
  induction n using Nat.strong_induction_on with
  | _ n ih =>
    intro fuel hf
    cases fuel with
    | zero =>
      have hn : n = 0 := by omega
      subst hn; rfl
    | succ f =>
      by_cases h : n < 10
      · rw [natToCharsAux, if_pos h]
        cases n with
        | zero => rfl
        | succ m => rw [natToCharsAux, if_pos h]
      · obtain ⟨m, rfl⟩ : ∃ m, n = m + 1 := ⟨n - 1, by omega⟩
        rw [natToCharsAux, if_neg h]
        conv_rhs => rw [natToCharsAux, if_neg h]
        have hlt : (m + 1) / 10 < m + 1 := by omega
        rw [ih ((m + 1) / 10) hlt f (by omega),
          ih ((m + 1) / 10) hlt m (by omega)]

/-- The recurrence `natToChars` satisfies: peel off the last decimal digit. -/
theorem natToChars_eq (n : Nat) :
    natToChars n = if n < 10 then [digitChar n]
      else natToChars (n / 10) ++ [digitChar (n % 10)] := by
  unfold natToChars
  by_cases h : n < 10
  · rw [if_pos h]
    cases n with
    | zero => rfl
    | succ m => rw [natToCharsAux, if_pos h]
  · rw [if_neg h]
    obtain ⟨m, rfl⟩ : ∃ m, n = m + 1 := ⟨n - 1, by omega⟩
    rw [natToCharsAux, if_neg h]
    congr 1
    exact natToCharsAux_fuel ((m + 1) / 10) m (by omega)

theorem natToChars_noColon (n : Nat) : ':' ∉ natToChars n := by
  induction n using Nat.strong_induction_on with
  | _ n ih =>
    rw [natToChars_eq]
    by_cases h : n < 10
    · simp only [if_pos h, List.mem_singleton]
      exact (digitChar_ne_colon n).symm
    · simp only [if_neg h, List.mem_append, List.mem_singleton]
      push_neg
      refine ⟨ih (n / 10) (Nat.div_lt_self (by omega) (by omega)), ?_⟩
      exact (digitChar_ne_colon (n % 10)).symm

theorem natToChars_ne_nil (n : Nat) : natToChars n ≠ [] := by
  rw [natToChars_eq]
  by_cases h : n < 10
  · simp [if_pos h]
  · simp [if_neg h]

theorem splitOnColon_noColon (s : List Char) (h : ':' ∉ s) :
    splitOnColon s = [s] := by
  induction s with
  | nil => rfl
  | cons c cs ih =>
    rw [splitOnColon]
    have hc : ¬ c = ':' := fun hc => h (hc ▸ List.mem_cons_self c cs)
    rw [if_neg hc, ih (fun hm => h (List.mem_cons_of_mem c hm))]

theorem splitOnColon_append (a b : List Char) (h : ':' ∉ a) :
    splitOnColon (a ++ ':' :: b) = a :: splitOnColon b := by
  induction a with
  | nil => simp [splitOnColon]
  | cons c cs ih =>
    have hc : ¬ c = ':' := fun hc => h (hc ▸ List.mem_cons_self c cs)
    rw [List.cons_append, splitOnColon, if_neg hc,
      ih (fun hm => h (List.mem_cons_of_mem c hm))]

theorem parseNatAux_append (xs ys : List Char) :
    ∀ acc, parseNatAux acc (xs ++ ys) =
      (parseNatAux acc xs).bind (fun m => parseNatAux m ys) := by
  induction xs with
  | nil => intro acc; rfl
  | cons c cs ih =>
    intro acc
    rw [List.cons_append, parseNatAux, parseNatAux]
    cases digitVal c with
    | none => rfl
    | some d => exact ih (acc * 10 + d)

theorem parseNatAux_natToChars (n : Nat) :
    ∀ acc, parseNatAux acc (natToChars n) =
      some (acc * 10 ^ (natToChars n).length + n) := by
  induction n using Nat.strong_induction_on with
  | _ n ih =>
    intro acc
    rw [natToChars_eq]
    by_cases h : n < 10
    · rw [if_pos h]
      simp only [parseNatAux, digitVal_digitChar n h, List.length_singleton,
        pow_one]
    · rw [if_neg h]
      rw [parseNatAux_append]
      rw [ih (n / 10) (Nat.div_lt_self (by omega) (by omega)) acc]
      simp only [Option.some_bind, parseNatAux,
        digitVal_digitChar (n % 10) (Nat.mod_lt n (by omega)),
        List.length_append, List.length_singleton]
      congr 1
      rw [pow_succ, ← mul_assoc]
      generalize acc * 10 ^ (natToChars (n / 10)).length = A
      omega

theorem parseNat_natToChars (n : Nat) : parseNat (natToChars n) = some n := by
  rw [parseNat, if_neg (natToChars_ne_nil n), parseNatAux_natToChars]
  simp

/-! ## Claim theorems -/

/-- C7: For every secret and configured expiry duration, validating a freshly
issued CSRF token against the same secret returns `true` at any time not
exceeding the embedded expiry timestamp (`now + expiry`), and returns `false`
at every time strictly after it.  The nonce and the digest are colon-free, as
`secrets.token_hex` and `hexdigest` outputs are. -/
theorem csrf_issue_validate_roundtrip
    (hmacHex : List Char → List Char → List Char)
    (secret_key random_token : List Char) (now0 expiry now : Nat)
    (hnonce : ':' ∉ random_token)
    (hsig : ':' ∉ hmacHex secret_key
      (random_token ++ ':' :: natToChars (now0 + expiry))) :
    (now ≤ (generate_csrf_token hmacHex secret_key random_token now0 expiry).2 →
      validate_csrf_token hmacHex
        (generate_csrf_token hmacHex secret_key random_token now0 expiry).1
        secret_key now = true) ∧
    ((generate_csrf_token hmacHex secret_key random_token now0 expiry).2 < now →
      validate_csrf_token hmacHex
        (generate_csrf_token hmacHex secret_key random_token now0 expiry).1
        secret_key now = false) := by
  have hsplit : splitOnColon
      ((random_token ++ ':' :: natToChars (now0 + expiry)) ++ ':' ::
        hmacHex secret_key (random_token ++ ':' :: natToChars (now0 + expiry)))
      = [random_token, natToChars (now0 + expiry),
         hmacHex secret_key
           (random_token ++ ':' :: natToChars (now0 + expiry))] := by
    rw [List.append_assoc, List.cons_append,
      splitOnColon_append _ _ hnonce,
      splitOnColon_append _ _ (natToChars_noColon _),
      splitOnColon_noColon _ hsig]
  constructor
  · intro hle
    simp only [generate_csrf_token] at hle ⊢
    simp only [validate_csrf_token, hsplit, parseNat_natToChars]
    rw [if_neg (by omega)]
    simp
  · intro hlt
    simp only [generate_csrf_token] at hlt ⊢
    simp only [validate_csrf_token, hsplit, parseNat_natToChars]
    rw [if_pos (by omega)]

/-- Witness for C7 at concrete inputs: the token issued under `hmacFix` at
time 100 with a 3600-second expiry validates at time 3700 and fails at 3701. -/
theorem csrf_issue_validate_roundtrip_witness :
    validate_csrf_token hmacFix tokFix "sec".data 3700 = true ∧
    validate_csrf_token hmacFix tokFix "sec".data 3701 = false := by
  have h1 := csrf_issue_validate_roundtrip hmacFix "sec".data "nonce1".data
    100 3600 3700 (by decide) (by decide)
  have h2 := csrf_issue_validate_roundtrip hmacFix "sec".data "nonce1".data
    100 3600 3701 (by decide) (by decide)
  exact ⟨h1.1 (by decide), h2.2 (by decide)⟩

/-- C4: A confirmation link issued at `t0` whose signature the delegated
verifier accepts validates successfully on the subscribe-confirmation path at
`now = t0 + 21599` and is rejected as expired at `now = t0 + 21601`: the
handlers reject exactly when `now - timestamp > 21600`.  Stated for both the
GET preview and the POST handler.  The base64 hypotheses say the stdlib codec
round-trips on the two issued segments (after the handler restores padding);
the nonemptiness hypotheses reflect that emails and MACs are nonempty. -/
theorem confirmation_link_six_hour_window
    (sites : List Char → Option NSite)
    (b64decode : List Char → Option (List Char))
    (b64encode : List Char → List Char) (signMac : List Char → List Char)
    (verifyMac : List Char → List Char → Bool)
    (site_slug : List Char) (site : NSite) (email : List Char) (t0 : Nat)
    (hsite : sites site_slug = some site)
    (hemail : b64decode (padB64 (rstripEq (b64encode email))) = some email)
    (hts : b64decode (padB64 (rstripEq (b64encode (natToChars t0)))) =
      some (natToChars t0))
    (hemail_ne : email ≠ [])
    (hsig_ne : signMac (confirmation_message email site.contact_list_name
      site.topic_name t0) ≠ [])
    (hverify : verifyMac
      (confirmation_message email site.contact_list_name site.topic_name t0)
      (signMac (confirmation_message email site.contact_list_name
        site.topic_name t0)) = true) :
    (confirm_preview sites b64decode verifyMac (t0 + 21599) site_slug
        (generate_confirmation_segments b64encode signMac site email t0).1
        (generate_confirmation_segments b64encode signMac site email t0).2.1
        (generate_confirmation_segments b64encode signMac site email t0).2.2 =
      ⟨200, .actionPage email t0
        (generate_confirmation_segments b64encode signMac site email t0).2.2⟩) ∧
    (confirm_preview sites b64decode verifyMac (t0 + 21601) site_slug
        (generate_confirmation_segments b64encode signMac site email t0).1
        (generate_confirmation_segments b64encode signMac site email t0).2.1
        (generate_confirmation_segments b64encode signMac site email t0).2.2 =
      ⟨400, .errorPage expiredConfirmMsg⟩) ∧
    (confirm_subscription sites verifyMac (t0 + 21599) site_slug (some email)
        (some (natToChars t0))
        (some ((generate_confirmation_segments b64encode signMac site
          email t0).2.2)) = .subscribed email) ∧
    (confirm_subscription sites verifyMac (t0 + 21601) site_slug (some email)
        (some (natToChars t0))
        (some ((generate_confirmation_segments b64encode signMac site
          email t0).2.2)) = .expired) := by
  simp only [generate_confirmation_segments]
  refine ⟨?_, ?_, ?_, ?_⟩
  · simp only [confirm_preview, hsite, hemail, hts, parseNat_natToChars]
    rw [if_neg (by push_cast; omega), if_pos]
    exact hverify
  · simp only [confirm_preview, hsite, hemail, hts, parseNat_natToChars]
    rw [if_pos (by push_cast; omega)]
  · simp only [confirm_subscription, hsite]
    rw [if_neg (by simp [hemail_ne, hsig_ne, natToChars_ne_nil])]
    simp only [parseNat_natToChars]
    rw [if_neg (by push_cast; omega), if_pos]
    exact hverify
  · simp only [confirm_subscription, hsite]
    rw [if_neg (by simp [hemail_ne, hsig_ne, natToChars_ne_nil])]
    simp only [parseNat_natToChars]
    rw [if_pos (by push_cast; omega)]

/-- Witness for C4 at concrete inputs: a link issued at `t0 = 1000` under the
fixture codec and an accept-all verifier validates at 22599 and expires at
22601, on both the GET and the POST path. -/
theorem confirmation_link_six_hour_window_witness :
    (confirm_preview nsitesFix decodeFix verifyYes 22599 "alpha".data
        (generate_confirmation_segments encodeFix signFix nsiteFix
          "a@b.example".data 1000).1
        (generate_confirmation_segments encodeFix signFix nsiteFix
          "a@b.example".data 1000).2.1
        (generate_confirmation_segments encodeFix signFix nsiteFix
          "a@b.example".data 1000).2.2 =
      ⟨200, .actionPage "a@b.example".data 1000
        (generate_confirmation_segments encodeFix signFix nsiteFix
          "a@b.example".data 1000).2.2⟩) ∧
    (confirm_preview nsitesFix decodeFix verifyYes 22601 "alpha".data
        (generate_confirmation_segments encodeFix signFix nsiteFix
          "a@b.example".data 1000).1
        (generate_confirmation_segments encodeFix signFix nsiteFix
          "a@b.example".data 1000).2.1
        (generate_confirmation_segments encodeFix signFix nsiteFix
          "a@b.example".data 1000).2.2 =
      ⟨400, .errorPage expiredConfirmMsg⟩) ∧
    (confirm_subscription nsitesFix verifyYes 22599 "alpha".data
        (some "a@b.example".data) (some (natToChars 1000))
        (some ((generate_confirmation_segments encodeFix signFix nsiteFix
          "a@b.example".data 1000).2.2)) = .subscribed "a@b.example".data) ∧
    (confirm_subscription nsitesFix verifyYes 22601 "alpha".data
        (some "a@b.example".data) (some (natToChars 1000))
        (some ((generate_confirmation_segments encodeFix signFix nsiteFix
          "a@b.example".data 1000).2.2)) = .expired) := by
  have h1 := confirmation_link_six_hour_window nsitesFix decodeFix encodeFix
    signFix verifyYes "alpha".data nsiteFix "a@b.example".data 1000
    (by decide) (by decide) (by decide) (by decide) (by decide) (by decide)
  exact ⟨h1.1, h1.2.1, h1.2.2.1, h1.2.2.2⟩

/-- C5: The unsubscribe variant of the signed-link protocol performs no
expiry check: for every unsubscribe link whose segments decode correctly and
whose signature the delegated verifier accepts, validation succeeds — on the
GET preview and on the POST handler — for an arbitrary embedded timestamp
`t0`, no matter how far in the past it lies.  Neither handler consults a
clock at all (`unsubscribe_preview` and `unsubscribe` take no time input). -/
theorem unsubscribe_link_no_expiry
    (sites : List Char → Option NSite)
    (b64decode : List Char → Option (List Char))
    (verifyMac : List Char → List Char → Bool)
    (site_slug : List Char) (site : NSite)
    (encoded_email encoded_timestamp signature email : List Char) (t0 : Nat)
    (hsite : sites site_slug = some site)
    (hemail : b64decode (padB64 encoded_email) = some email)
    (hts : b64decode (padB64 encoded_timestamp) = some (natToChars t0))
    (hemail_ne : email ≠ []) (hsig_ne : signature ≠ [])
    (hverify : verifyMac
      (confirmation_message email site.contact_list_name site.topic_name t0)
      signature = true) :
    (unsubscribe_preview sites b64decode verifyMac site_slug encoded_email
        encoded_timestamp signature = ⟨200, .actionPage email t0 signature⟩) ∧
    (unsubscribe sites verifyMac site_slug (some email)
        (some (natToChars t0)) (some signature) = .unsubscribed email) := by
  constructor
  · simp only [unsubscribe_preview, hsite, hemail, hts, parseNat_natToChars]
    rw [if_pos]
    exact hverify
  · simp only [unsubscribe, hsite]
    rw [if_neg (by simp [hemail_ne, hsig_ne, natToChars_ne_nil])]
    simp only [parseNat_natToChars]
    rw [if_pos]
    exact hverify

/-- Witness for C5 at concrete inputs: an unsubscribe link with embedded
timestamp 3 (arbitrarily old — the handlers never compare it to a clock)
still validates on both paths. -/
theorem unsubscribe_link_no_expiry_witness :
    (unsubscribe_preview nsitesFix decodeFix verifyYes "alpha".data
        "a@b.example".data "3".data "MAC0".data =
      ⟨200, .actionPage "a@b.example".data 3 "MAC0".data⟩) ∧
    (unsubscribe nsitesFix verifyYes "alpha".data (some "a@b.example".data)
        (some (natToChars 3)) (some "MAC0".data) =
      .unsubscribed "a@b.example".data) :=
  unsubscribe_link_no_expiry nsitesFix decodeFix verifyYes "alpha".data
    nsiteFix "a@b.example".data "3".data "MAC0".data "a@b.example".data 3
    (by decide) (by decide) (by decide) (by decide) (by decide) (by decide)

/-- C6 counterexample: the claim "every failing confirmation-link validation
returns the same single message regardless of cause" is false at a concrete
input.  With the same site, codec, and rejecting verifier, a link whose
timestamp is expired gets the message 'Confirmation link has expired', while
one failing only signature verification gets 'Invalid confirmation link' —
two different user-visible messages for two failing validations. -/
theorem confirmation_link_failure_message_counterexample :
    (confirm_preview nsitesFix decodeFix verifyNo 30000 "alpha".data
        "aQ".data "0".data "MAC0".data).body =
      PreviewBody.errorPage expiredConfirmMsg ∧
    (confirm_preview nsitesFix decodeFix verifyNo 30000 "alpha".data
        "aQ".data "30000".data "MAC0".data).body =
      PreviewBody.errorPage invalidConfirmMsg ∧
    expiredConfirmMsg ≠ invalidConfirmMsg := by decide

/-- C6 (amended): on the confirmation-preview path, base64/UTF-8 decode
errors, unparsable timestamps, and signature mismatches all collapse into the
one message 'Invalid confirmation link'; expiry, however, returns the
distinct message 'Confirmation link has expired', so an expired link *is*
distinguishable from the other failure causes. -/
theorem confirmation_link_failure_messages
    (sites : List Char → Option NSite)
    (b64decode : List Char → Option (List Char))
    (verifyMac : List Char → List Char → Bool) (now : Nat)
    (site_slug enc_e enc_t sig : List Char) (site : NSite)
    (hsite : sites site_slug = some site) :
    (b64decode (padB64 enc_e) = none →
      confirm_preview sites b64decode verifyMac now site_slug enc_e enc_t sig =
        ⟨400, .errorPage invalidConfirmMsg⟩) ∧
    (∀ email, b64decode (padB64 enc_e) = some email →
      b64decode (padB64 enc_t) = none →
      confirm_preview sites b64decode verifyMac now site_slug enc_e enc_t sig =
        ⟨400, .errorPage invalidConfirmMsg⟩) ∧
    (∀ email tsChars, b64decode (padB64 enc_e) = some email →
      b64decode (padB64 enc_t) = some tsChars → parseNat tsChars = none →
      confirm_preview sites b64decode verifyMac now site_slug enc_e enc_t sig =
        ⟨400, .errorPage invalidConfirmMsg⟩) ∧
    (∀ email tsChars t, b64decode (padB64 enc_e) = some email →
      b64decode (padB64 enc_t) = some tsChars → parseNat tsChars = some t →
      (now : Int) - (t : Int) ≤ 21600 →
      verify_confirmation_signature verifyMac email site.contact_list_name
        site.topic_name t sig = false →
      confirm_preview sites b64decode verifyMac now site_slug enc_e enc_t sig =
        ⟨400, .errorPage invalidConfirmMsg⟩) ∧
    (∀ email tsChars t, b64decode (padB64 enc_e) = some email →
      b64decode (padB64 enc_t) = some tsChars → parseNat tsChars = some t →
      (now : Int) - (t : Int) > 21600 →
      confirm_preview sites b64decode verifyMac now site_slug enc_e enc_t sig =
        ⟨400, .errorPage expiredConfirmMsg⟩) ∧
    expiredConfirmMsg ≠ invalidConfirmMsg := by
  refine ⟨?_, ?_, ?_, ?_, ?_, by decide⟩
  · intro hde
    simp only [confirm_preview, hsite, hde]
  · intro email hde hdt
    simp only [confirm_preview, hsite, hde, hdt]
  · intro email tsChars hde hdt hp
    simp only [confirm_preview, hsite, hde, hdt, hp]
  · intro email tsChars t hde hdt hp hwin hver
    simp only [confirm_preview, hsite, hde, hdt, hp]
    rw [if_neg (by omega), if_neg (by simp [hver])]
  · intro email tsChars t hde hdt hp hwin
    simp only [confirm_preview, hsite, hde, hdt, hp]
    rw [if_pos hwin]

/-- Witness for the amended C6 at concrete inputs: a signature-mismatch
failure inside the 6-hour window yields 'Invalid confirmation link'. -/
theorem confirmation_link_failure_messages_witness :
    confirm_preview nsitesFix decodeFix verifyNo 30000 "alpha".data
      "aQ".data "30000".data "MAC0".data =
      ⟨400, .errorPage invalidConfirmMsg⟩ :=
  (confirmation_link_failure_messages nsitesFix decodeFix verifyNo 30000
    "alpha".data "aQ".data "30000".data "MAC0".data nsiteFix
    (by decide)).2.2.2.1 "aQ".data "30000".data 30000
    (by decide) (by decide) (by decide) (by decide) (by decide)

/-- C1: A confirm request for a stored `pending` submission with the matching
site slug and a CSRF token that validates transitions the submission to
`confirmed` and invokes the publisher (here succeeding with `pr_url`); any
subsequent confirm request for the same submission id — whatever its CSRF
token (as long as it passes the guard) and whatever its publisher would do —
returns the already-processed rejection, leaves the store unchanged, and does
not invoke the publisher again. -/
theorem confirm_pending_exactly_once
    (sites : List Char → Option ESite)
    (hmacHex : List Char → List Char → List Char) (csrf_secret : List Char)
    (now now2 : Nat) (pr_url : List Char)
    (pub2 : Except (List Char) (List Char)) (store : Store)
    (site_slug submission_id : List Char)
    (csrf1 csrf2 : Option (List Char)) (site : ESite) (sub : Submission)
    (hsite : sites site_slug = some site)
    (hcsrf1 : csrf_token_passes hmacHex csrf_secret now csrf1 = true)
    (hcsrf2 : csrf_token_passes hmacHex csrf_secret now2 csrf2 = true)
    (hsub : store submission_id = some sub)
    (hpending : sub.status = "pending".data)
    (hslug : sub.site_slug = site_slug)
    (htype : sub.type = "event".data) :
    ((confirm_submission sites hmacHex csrf_secret now (.ok pr_url) store
        site_slug submission_id csrf1).status = 200) ∧
    ((confirm_submission sites hmacHex csrf_secret now (.ok pr_url) store
        site_slug submission_id csrf1).body = .successPage pr_url) ∧
    ((confirm_submission sites hmacHex csrf_secret now (.ok pr_url) store
        site_slug submission_id csrf1).effs =
      [.getSub submission_id, .publish submission_id,
       .setStatus submission_id "confirmed".data (some pr_url)]) ∧
    (((confirm_submission sites hmacHex csrf_secret now (.ok pr_url) store
        site_slug submission_id csrf1).store submission_id).map
      Submission.status = some "confirmed".data) ∧
    (confirm_submission sites hmacHex csrf_secret now2 pub2
        (confirm_submission sites hmacHex csrf_secret now (.ok pr_url) store
          site_slug submission_id csrf1).store
        site_slug submission_id csrf2 =
      ⟨400, .jsonError alreadyProcessedMsg,
       (confirm_submission sites hmacHex csrf_secret now (.ok pr_url) store
         site_slug submission_id csrf1).store, [.getSub submission_id]⟩) := by
  have hO1 : confirm_submission sites hmacHex csrf_secret now (.ok pr_url)
      store site_slug submission_id csrf1 =
      ⟨200, .successPage pr_url,
       update_submission_status store submission_id "confirmed".data
         (some pr_url),
       [.getSub submission_id, .publish submission_id,
        .setStatus submission_id "confirmed".data (some pr_url)]⟩ := by
    simp only [confirm_submission, hsite, hcsrf1, if_true, get_submission,
      hsub]
    rw [if_neg (by simp [hpending]), if_neg (by simp [hslug]), if_pos htype]
  have hstore1 : (update_submission_status store submission_id
      "confirmed".data (some pr_url)) submission_id =
      some { sub with
             status := "confirmed".data
             pr_url := (if pr_url = [] then sub.pr_url else some pr_url) } := by
    simp [update_submission_status, hsub]
  refine ⟨by rw [hO1], by rw [hO1], by rw [hO1], ?_, ?_⟩
  · rw [hO1]
    simp [hstore1]
  · rw [hO1]
    simp only [confirm_submission, hsite, hcsrf2, if_true, get_submission,
      hstore1]
    rw [if_pos (by simp)]

/-- Witness for C1 at concrete inputs: a pending event submission `id0` on
site `alpha`, a validating fixture CSRF token, and a succeeding publisher. -/
theorem confirm_pending_exactly_once_witness :
    (confirm_submission esitesFix hmacFix "sec".data 3700
      (.ok "https://github.com/org/repo/pull/1".data) storeFix "alpha".data
      "id0".data (some tokFix)).status = 200 ∧
    (confirm_submission esitesFix hmacFix "sec".data 3700 (.error "x".data)
        (confirm_submission esitesFix hmacFix "sec".data 3700
          (.ok "https://github.com/org/repo/pull/1".data) storeFix
          "alpha".data "id0".data (some tokFix)).store
        "alpha".data "id0".data (some tokFix)).body =
      .jsonError alreadyProcessedMsg := by
  have h := confirm_pending_exactly_once esitesFix hmacFix "sec".data 3700
    3700 "https://github.com/org/repo/pull/1".data (.error "x".data) storeFix
    "alpha".data "id0".data (some tokFix) (some tokFix) esiteFix subFix
    (by decide) (by decide) (by decide) (by decide) (by decide) (by decide)
    (by decide)
  exact ⟨h.1, by rw [h.2.2.2.2]⟩

/-- C3: If the publisher raised during a confirm request on a pending
submission, the handler returns a 500, the table is returned unchanged (no
status write occurs — the `update_item` is only reached after a successful
publish), and the stored submission is still `pending`, so the confirm
operation is retryable. -/
theorem confirm_publisher_failure_keeps_pending
    (sites : List Char → Option ESite)
    (hmacHex : List Char → List Char → List Char) (csrf_secret : List Char)
    (now : Nat) (e : List Char) (store : Store)
    (site_slug submission_id : List Char) (csrf : Option (List Char))
    (site : ESite) (sub : Submission)
    (hsite : sites site_slug = some site)
    (hcsrf : csrf_token_passes hmacHex csrf_secret now csrf = true)
    (hsub : store submission_id = some sub)
    (hpending : sub.status = "pending".data)
    (hslug : sub.site_slug = site_slug)
    (htype : sub.type = "event".data) :
    (confirm_submission sites hmacHex csrf_secret now (.error e) store
        site_slug submission_id csrf =
      ⟨500, .jsonError (prFailMsgHead ++ e), store,
       [.getSub submission_id, .publish submission_id]⟩) ∧
    (((confirm_submission sites hmacHex csrf_secret now (.error e) store
        site_slug submission_id csrf).store submission_id).map
      Submission.status = some "pending".data) := by
  have hO : confirm_submission sites hmacHex csrf_secret now (.error e) store
      site_slug submission_id csrf =
      ⟨500, .jsonError (prFailMsgHead ++ e), store,
       [.getSub submission_id, .publish submission_id]⟩ := by
    simp only [confirm_submission, hsite, hcsrf, if_true, get_submission,
      hsub]
    rw [if_neg (by simp [hpending]), if_neg (by simp [hslug]), if_pos htype]
  refine ⟨hO, ?_⟩
  rw [hO]
  simp [hsub, hpending]

/-- Witness for C3 at concrete inputs: a publisher raising `Exception('x')`
leaves the fixture store untouched and yields the 500. -/
theorem confirm_publisher_failure_keeps_pending_witness :
    confirm_submission esitesFix hmacFix "sec".data 3700 (.error "x".data)
      storeFix "alpha".data "id0".data (some tokFix) =
      ⟨500, .jsonError (prFailMsgHead ++ "x".data), storeFix,
       [.getSub "id0".data, .publish "id0".data]⟩ :=
  (confirm_publisher_failure_keeps_pending esitesFix hmacFix "sec".data 3700
    "x".data storeFix "alpha".data "id0".data (some tokFix) esiteFix subFix
    (by decide) (by decide) (by decide) (by decide) (by decide)
    (by decide)).1

/-- C9 at the failing input: when the publisher raises `Exception('boom')`
during confirm of the pending fixture submission, the 500 response's JSON
error is `'Failed to create pull request: boom'` — the generic message
*concatenated with the internal exception text*, contradicting the claim
that the body never includes it. -/
theorem confirm_publisher_error_leaks_exception_text :
    (confirm_submission esitesFix hmacFix "sec".data 3700
        (.error "boom".data) storeFix "alpha".data "id0".data
        (some tokFix)).status = 500 ∧
    (confirm_submission esitesFix hmacFix "sec".data 3700
        (.error "boom".data) storeFix "alpha".data "id0".data
        (some tokFix)).body =
      .jsonError "Failed to create pull request: boom".data ∧
    "Failed to create pull request: boom".data =
      prFailMsgHead ++ "boom".data := by
  refine ⟨by decide, by decide, by decide⟩

/-- C10: A confirm request whose CSRF token is missing, empty, or fails
validation returns the 403 with the table read and write trace empty: the
stored submission is neither read nor written and the publisher is never
invoked in that request. -/
theorem csrf_failure_blocks_all_effects
    (sites : List Char → Option ESite)
    (hmacHex : List Char → List Char → List Char) (csrf_secret : List Char)
    (now : Nat) (pub : Except (List Char) (List Char)) (store : Store)
    (site_slug submission_id : List Char) (csrf : Option (List Char))
    (site : ESite)
    (hsite : sites site_slug = some site)
    (hcsrf : csrf_token_passes hmacHex csrf_secret now csrf = false) :
    confirm_submission sites hmacHex csrf_secret now pub store site_slug
      submission_id csrf = ⟨403, .jsonError invalidCsrfMsg, store, []⟩ := by
  simp [confirm_submission, hsite, hcsrf]

/-- Witness for C10 at concrete inputs: a missing CSRF token (`none`) gets
the 403 with no store access and no publisher call. -/
theorem csrf_failure_blocks_all_effects_witness :
    confirm_submission esitesFix hmacFix "sec".data 3700 (.ok "u".data)
      storeFix "alpha".data "id0".data none =
      ⟨403, .jsonError invalidCsrfMsg, storeFix, []⟩ :=
  csrf_failure_blocks_all_effects esitesFix hmacFix "sec".data 3700
    (.ok "u".data) storeFix "alpha".data "id0".data none esiteFix
    (by decide) (by decide)

/-- C8: On a well-formed JSON request (site resolved, CSRF valid, submitter
form valid), a submission with 0 items is rejected with the
at-least-one-item error and a submission with more than 5 items (so in
particular with 6) with the maximum-of-5 error; and whenever the count is
out of bounds — zero or more than five, whatever the items — or any item in
the batch fails validation, the table is unchanged and no effect (no
`put_item`, no email) occurs: all item validation precedes persistence. -/
theorem submit_event_bounds_and_atomic_validation
    (sites : List Char → Option ESite)
    (hmacHex : List Char → List Char → List Char) (csrf_secret : List Char)
    (now : Nat) (userFormValid : Bool) (eventFormValid : EventItem → Bool)
    (fresh_id created_at : List Char) (store : Store) (site_slug : List Char)
    (csrf : Option (List Char)) (email submitted_by : List Char)
    (link : Option (List Char)) (events : List EventItem) (site : ESite)
    (hsite : sites site_slug = some site)
    (hcsrf : csrf_token_passes hmacHex csrf_secret now csrf = true)
    (huser : userFormValid = true) :
    (events = [] →
      submit_event sites hmacHex csrf_secret now userFormValid eventFormValid
        fresh_id created_at store site_slug true csrf email submitted_by link
        events = ⟨400, atLeastOneMsg, store, []⟩) ∧
    (events.length > 5 →
      submit_event sites hmacHex csrf_secret now userFormValid eventFormValid
        fresh_id created_at store site_slug true csrf email submitted_by link
        events = ⟨400, maxFiveMsg, store, []⟩) ∧
    ((events = [] ∨ events.length > 5 ∨ ∃ ev ∈ events,
        eventFormValid ev = false) →
      (submit_event sites hmacHex csrf_secret now userFormValid eventFormValid
        fresh_id created_at store site_slug true csrf email submitted_by link
        events).store = store ∧
      (submit_event sites hmacHex csrf_secret now userFormValid eventFormValid
        fresh_id created_at store site_slug true csrf email submitted_by link
        events).effs = []) := by
  have hempty : events = [] →
      submit_event sites hmacHex csrf_secret now userFormValid eventFormValid
        fresh_id created_at store site_slug true csrf email submitted_by link
        events = ⟨400, atLeastOneMsg, store, []⟩ := by
    intro h0
    subst h0
    simp [submit_event, hsite, hcsrf, huser]
  have hover : events.length > 5 →
      submit_event sites hmacHex csrf_secret now userFormValid eventFormValid
        fresh_id created_at store site_slug true csrf email submitted_by link
        events = ⟨400, maxFiveMsg, store, []⟩ := by
    intro h5
    have hne : events ≠ [] := by
      intro h; rw [h] at h5; simp at h5
    simp [submit_event, hsite, hcsrf, huser, hne, h5]
  refine ⟨hempty, hover, ?_⟩
  rintro (h0 | h5 | ⟨ev, hmem, hinv⟩)
  · rw [hempty h0]
    exact ⟨rfl, rfl⟩
  · rw [hover h5]
    exact ⟨rfl, rfl⟩
  · by_cases h0 : events = []
    · subst h0; simp at hmem
    · by_cases h5 : events.length > 5
      · rw [hover h5]
        exact ⟨rfl, rfl⟩
      · have hany : events.any (fun e => ! eventFormValid e) = true := by
          rw [List.any_eq_true]
          exact ⟨ev, hmem, by simp [hinv]⟩
        simp [submit_event, hsite, hcsrf, huser, h0, h5, hany]

/-- Witness for C8 at concrete inputs: the empty batch is rejected with the
at-least-one-item error, and a batch of 7 copies of a valid item is rejected
with the maximum-of-5 error; in both cases nothing is stored and no effect
occurs. -/
theorem submit_event_bounds_and_atomic_validation_witness :
    (submit_event esitesFix hmacFix "sec".data 3700 true (fun _ => true)
      "fid".data "ts".data storeFix "alpha".data true (some tokFix)
      "a@b.example".data "ross".data none [] =
      ⟨400, atLeastOneMsg, storeFix, []⟩) ∧
    (submit_event esitesFix hmacFix "sec".data 3700 true (fun _ => true)
      "fid".data "ts".data storeFix "alpha".data true (some tokFix)
      "a@b.example".data "ross".data none (List.replicate 7 itemFix) =
      ⟨400, maxFiveMsg, storeFix, []⟩) :=
  ⟨(submit_event_bounds_and_atomic_validation esitesFix hmacFix "sec".data
      3700 true (fun _ => true) "fid".data "ts".data storeFix "alpha".data
      (some tokFix) "a@b.example".data "ross".data none [] esiteFix
      (by decide) (by decide) rfl).1 rfl,
   (submit_event_bounds_and_atomic_validation esitesFix hmacFix "sec".data
      3700 true (fun _ => true) "fid".data "ts".data storeFix "alpha".data
      (some tokFix) "a@b.example".data "ross".data none
      (List.replicate 7 itemFix) esiteFix
      (by decide) (by decide) rfl).2.1 (by decide)⟩

/-- C2 counterexample: the claimed conditional write does not exist — the
transition is a read-then-write with an unconditional `update_item` — so two
concurrent confirm requests for the same pending submission, interleaved
read, read, finish, finish, each invoke the publisher: the publish count is
2, not the "exactly one downstream publish" the claim asserts. -/
theorem concurrent_confirm_double_publish_counterexample :
    (runTwoConfirms "alpha".data "id0".data "u1".data "u2".data
      ⟨storeFix, .notStarted, .notStarted, 0⟩
      [true, false, true, false]).pubs = 2 ∧ (2 : Nat) ≠ 1 := by
  refine ⟨by decide, by decide⟩

/-- C2 (amended): the pending→confirmed transition is a read-then-write —
`update_submission_status` issues `update_item` with no ConditionExpression —
so for every store holding a pending event submission, two concurrent
confirm requests whose reads both precede the writes (schedule A-read,
B-read, A-finish, B-finish) both see `pending` and both invoke the
publisher: two downstream publishes occur, not exactly one. -/
theorem concurrent_confirm_double_publish
    (store : Store) (site_slug submission_id prA prB : List Char)
    (sub : Submission)
    (hsub : store submission_id = some sub)
    (hpending : sub.status = "pending".data)
    (hslug : sub.site_slug = site_slug)
    (htype : sub.type = "event".data) :
    (runTwoConfirms site_slug submission_id prA prB
      ⟨store, .notStarted, .notStarted, 0⟩
      [true, false, true, false]).pubs = 2 := by
  have hread : ∀ pr : List Char,
      stepConfirm site_slug submission_id pr store .notStarted =
        (store, .readDone (some sub), 0) := by
    intro pr
    simp [stepConfirm, get_submission, hsub]
  have hfin : ∀ (st : Store) (pr : List Char),
      stepConfirm site_slug submission_id pr st (.readDone (some sub)) =
        (update_submission_status st submission_id "confirmed".data (some pr),
         .finished, 1) := by
    intro st pr
    simp only [stepConfirm, confirmFinish]
    rw [if_neg (by simp [hpending]), if_neg (by simp [hslug]), if_pos htype]
    simp
  simp only [runTwoConfirms, if_true, if_false, hread, hfin]
  simp [hread, hfin]

/-- Witness for the amended C2 at concrete inputs: the fixture store's
pending submission yields two publishes under the read-read-write-write
schedule. -/
theorem concurrent_confirm_double_publish_witness :
    (runTwoConfirms "alpha".data "id0".data "uA".data "uB".data
      ⟨storeFix, .notStarted, .notStarted, 0⟩
      [true, false, true, false]).pubs = 2 :=
  concurrent_confirm_double_publish storeFix "alpha".data "id0".data
    "uA".data "uB".data subFix (by decide) (by decide) (by decide) (by decide)

end CalendarHub
